import Mathlib

/-!
Shallow embedding of the robinhood crypto trading client (robinhood.py):
a signed-request HTTP client with a TTL-memoized trading-pair lookup and
a quote-normalization pipeline.  Numeric wire fields (decimal strings)
are modelled as exact rationals; Python exceptions are modelled with an
explicit error type and `Except`; the HTTP layer is modelled by passing
the upstream outcome (status + parsed JSON body, or a network error) as
an explicit argument, and every request actually issued is returned so
that transport-level properties (single attempt, timeout, headers, body
attachment) can be stated.  Timestamp parsing (`datetime.fromisoformat`)
is abstracted as a parameter `parseIso : String → Int`, and the Ed25519
signing primitive as a parameter `sigPrim` on raw bytes.
-/

namespace Robinhood

/-- JSON values as delivered by the upstream API (numbers as exact rationals). -/
inductive Json where
  | null : Json
  | bool (b : Bool) : Json
  | str (s : String) : Json
  | num (q : ℚ) : Json
  | arr (elems : List Json) : Json
  | obj (fields : List (String × Json)) : Json

/-- Python exceptions that the modelled code can raise. -/
inductive PyError where
  | keyError (key : String)
  | valueError (msg : String)
  | indexError
  | typeError
  | attributeError
  | zeroDivisionError
deriving DecidableEq, Repr

/-- Value of a decimal digit character. -/
def digitVal (c : Char) : Option Nat :=
  if c.isDigit then some (c.toNat - 48) else none

/-- Parse a non-empty all-digit character list as a natural number. -/
def parseNatDigits (cs : List Char) : Option Nat :=
  if cs.isEmpty then none
  else cs.foldl
    (fun acc c =>
      match acc, digitVal c with
      | some n, some d => some (n * 10 + d)
      | _, _ => none)
    (some 0)

/-- Split a character list at the first dot, keeping what follows it. -/
def splitDot : List Char → List Char × Option (List Char)
  | [] => ([], none)
  | c :: rest =>
    if c = '.' then ([], some rest)
    else
      let p := splitDot rest
      (c :: p.1, p.2)

/-- Python `float(s)` on the decimal-string wire format: optional sign,
integer digits, optional fractional digits.  `none` models `ValueError`. -/
def parseFloat (s : String) : Option ℚ :=
  let signBody : ℚ × List Char :=
    match s.toList with
    | '-' :: rest => (-1, rest)
    | '+' :: rest => (1, rest)
    | cs => (1, cs)
  match splitDot signBody.2 with
  | (intPart, none) =>
    (parseNatDigits intPart).map (fun n => signBody.1 * (n : ℚ))
  | (intPart, some fracPart) =>
    match parseNatDigits intPart, parseNatDigits fracPart with
    | some i, some f =>
      some (signBody.1 * ((i : ℚ) + (f : ℚ) / (10 : ℚ) ^ fracPart.length))
    | _, _ => none

/-- Python `data[key]` on a parsed-JSON value: `KeyError` when the key is
absent from a dict, `TypeError` when the value is not a dict. -/
def Json.getItem (data : Json) (key : String) : Except PyError Json :=
  match data with
  | .obj fields =>
    match List.lookup key fields with
    | some v => .ok v
    | none => .error (.keyError key)
  | _ => .error .typeError

/-- Python `data[key]` validated as a string (pydantic `str` field). -/
def Json.getStr (data : Json) (key : String) : Except PyError String := do
  match ← data.getItem key with
  | .str s => .ok s
  | _ => .error (.valueError key)

/-- Python `float(data[key])`: `KeyError` when absent, `ValueError` when the
string is not decimal. -/
def Json.getFloat (data : Json) (key : String) : Except PyError ℚ := do
  match ← data.getItem key with
  | .str s =>
    match parseFloat s with
    | some q => .ok q
    | none => .error (.valueError s)
  | .num q => .ok q
  | _ => .error (.valueError key)

/-- TradingPair (robinhood.py lines 35-43). -/
structure TradingPair where
  asset_code : String
  asset_increment : ℚ
  max_order_size : ℚ
  min_order_size : ℚ
  quote_code : String
  quote_increment : ℚ
  status : String
  symbol : String
deriving DecidableEq, Repr

/-- TradingPair.from_dict (robinhood.py lines 45-56): field lookups and
string→float coercions in source order. -/
def TradingPair.from_dict (data : Json) : Except PyError TradingPair := do
  let asset_code ← data.getStr "asset_code"
  let asset_increment ← data.getFloat "asset_increment"
  let max_order_size ← data.getFloat "max_order_size"
  let min_order_size ← data.getFloat "min_order_size"
  let quote_code ← data.getStr "quote_code"
  let quote_increment ← data.getFloat "quote_increment"
  let status ← data.getStr "status"
  let symbol ← data.getStr "symbol"
  .ok { asset_code, asset_increment, max_order_size, min_order_size,
        quote_code, quote_increment, status, symbol }

/-- EstimatedOrderPrice (robinhood.py lines 65-72); the parsed
`datetime` timestamp is modelled as an `Int`. -/
structure EstimatedOrderPrice where
  symbol : String
  price : ℚ
  quantity : ℚ
  side : String
  timestamp : Int
  price_including_spread : ℚ
  spread : ℚ
deriving DecidableEq, Repr

/-- EstimatedOrderPrice.from_dict (robinhood.py lines 74-90):
side-dependent selection of the spread source fields, then field
coercions; `parseIso` models `datetime.datetime.fromisoformat`. -/
def EstimatedOrderPrice.from_dict (parseIso : String → Int) (data : Json) :
    Except PyError EstimatedOrderPrice := do
  let side ← data.getStr "side"
  let price_including_spread_key :=
    if side = "bid" then "bid_inclusive_of_sell_spread"
    else "ask_inclusive_of_buy_spread"
  let spread_key := if side = "bid" then "sell_spread" else "buy_spread"
  let symbol ← data.getStr "symbol"
  let price ← data.getFloat "price"
  let quantity ← data.getFloat "quantity"
  let tsRaw ← data.getStr "timestamp"
  let price_including_spread ← data.getFloat price_including_spread_key
  let spread ← data.getFloat spread_key
  .ok { symbol, price, quantity, side, timestamp := parseIso tsRaw,
        price_including_spread, spread }

/-- EstimatedBidAndAskPrice (robinhood.py lines 92-95). -/
structure EstimatedBidAndAskPrice where
  bid : EstimatedOrderPrice
  ask : EstimatedOrderPrice
  timestamp : Int
deriving DecidableEq, Repr

/-- EstimatedBidAndAskPrice.from_objs (robinhood.py lines 108-114):
raises `ValueError` when the bid and ask timestamps differ. -/
def EstimatedBidAndAskPrice.from_objs (bid ask : EstimatedOrderPrice) :
    Except PyError EstimatedBidAndAskPrice :=
  if bid.timestamp ≠ ask.timestamp then
    .error (.valueError "Bid and ask timestamps must match")
  else
    .ok { bid, ask, timestamp := bid.timestamp }

/-- EstimatedBidAndAskPrice.from_dict (robinhood.py lines 97-106):
parses the nested bid and ask dicts, then checks timestamp equality. -/
def EstimatedBidAndAskPrice.from_dict (parseIso : String → Int) (data : Json) :
    Except PyError EstimatedBidAndAskPrice := do
  let bid ← EstimatedOrderPrice.from_dict parseIso (← data.getItem "bid")
  let ask ← EstimatedOrderPrice.from_dict parseIso (← data.getItem "ask")
  if bid.timestamp ≠ ask.timestamp then
    .error (.valueError "Bid and ask timestamps must match")
  else
    .ok { bid, ask, timestamp := bid.timestamp }

/-- EstimatedOrderPriceHistoryEntry (robinhood.py lines 116-134): the
flattened storage projection. -/
structure EstimatedOrderPriceHistoryEntry where
  symbol : String
  bid_price : ℚ
  bid_quantity : ℚ
  bid_side : String
  bid_timestamp : Int
  bid_price_including_spread : ℚ
  bid_spread : ℚ
  ask_price : ℚ
  ask_quantity : ℚ
  ask_side : String
  ask_timestamp : Int
  ask_price_including_spread : ℚ
  ask_spread : ℚ
  timestamp : Int
deriving DecidableEq, Repr

/-- EstimatedOrderPriceHistoryEntry.from_obj (robinhood.py lines 136-153). -/
def EstimatedOrderPriceHistoryEntry.from_obj (data : EstimatedBidAndAskPrice) :
    EstimatedOrderPriceHistoryEntry :=
  { symbol := data.bid.symbol
    bid_price := data.bid.price
    bid_quantity := data.bid.quantity
    bid_side := data.bid.side
    bid_timestamp := data.bid.timestamp
    bid_price_including_spread := data.bid.price_including_spread
    bid_spread := data.bid.spread
    ask_price := data.ask.price
    ask_quantity := data.ask.quantity
    ask_side := data.ask.side
    ask_timestamp := data.ask.timestamp
    ask_price_including_spread := data.ask.price_including_spread
    ask_spread := data.ask.spread
    timestamp := data.timestamp }

/-- EstimatedOrderPriceHistoryEntry.from_objs (robinhood.py lines 155-172):
copies the two sides field by field; note that, unlike
`EstimatedBidAndAskPrice.from_objs`, it performs no timestamp check and
sets the composite timestamp to the bid's. -/
def EstimatedOrderPriceHistoryEntry.from_objs (bid ask : EstimatedOrderPrice) :
    EstimatedOrderPriceHistoryEntry :=
  { symbol := bid.symbol
    bid_price := bid.price
    bid_quantity := bid.quantity
    bid_side := bid.side
    bid_timestamp := bid.timestamp
    bid_price_including_spread := bid.price_including_spread
    bid_spread := bid.spread
    ask_price := ask.price
    ask_quantity := ask.quantity
    ask_side := ask.side
    ask_timestamp := ask.timestamp
    ask_price_including_spread := ask.price_including_spread
    ask_spread := ask.spread
    timestamp := bid.timestamp }

/-! ## Transport and signing (CryptoAPITrading) -/

/-- HTTP methods used by the client (only GET and POST occur). -/
inductive Method where
  | GET : Method
  | POST : Method
deriving DecidableEq, Repr

/-- The method name string as interpolated into the signed message. -/
def Method.str : Method → String
  | .GET => "GET"
  | .POST => "POST"

/-- Base64 alphabet. -/
def base64Chars : List Char :=
  "ABCDEFGHIJKLMNOPQRSTUVWXYZabcdefghijklmnopqrstuvwxyz0123456789+/".toList

/-- Character of the base64 alphabet at a 6-bit index. -/
def b64CharAt (n : Nat) : Char := base64Chars.getD n 'A'

/-- Standard base64 encoding of a byte list (values < 256), with padding. -/
def base64encode : List Nat → String
  | [] => ""
  | [a] =>
    String.mk [b64CharAt (a / 4), b64CharAt (a % 4 * 16), '=', '=']
  | [a, b] =>
    String.mk [b64CharAt (a / 4), b64CharAt (a % 4 * 16 + b / 16),
               b64CharAt (b % 16 * 4), '=']
  | a :: b :: c :: rest =>
    String.mk [b64CharAt (a / 4), b64CharAt (a % 4 * 16 + b / 16),
               b64CharAt (b % 16 * 4 + c / 64), b64CharAt (c % 64)] ++
    base64encode rest

/-- UTF-8 bytes of a string, as natural numbers. -/
def utf8Bytes (s : String) : List Nat :=
  s.toUTF8.toList.map (fun b => b.toNat)

/-- CryptoAPITrading.get_authorization_header (robinhood.py lines 217-227):
the signed message is the delimiter-free concatenation
apiKey ++ timestamp ++ path ++ method ++ body; `sigPrim` models the raw
Ed25519 signing primitive (`self.private_key.sign(...).signature`). -/
def get_authorization_header (sigPrim : List Nat → List Nat) (api_key : String)
    (method : Method) (path : String) (body : String) (timestamp : Int) :
    List (String × String) :=
  let message_to_sign := api_key ++ toString timestamp ++ path ++ method.str ++ body
  let signature := sigPrim (utf8Bytes message_to_sign)
  [("x-api-key", api_key),
   ("x-signature", base64encode signature),
   ("x-timestamp", toString timestamp)]

/-- An HTTP request as issued by the `requests` calls in make_api_request:
GET carries no body, POST attaches the JSON body; timeout is 10 seconds. -/
structure HttpRequest where
  method : Method
  url : String
  headers : List (String × String)
  reqBody : Option String
  timeout : Nat
deriving Repr

/-- Outcome of the single HTTP attempt: a response with a status code and
parsed JSON body, or a network-level error (`requests.RequestException`). -/
inductive HttpOutcome where
  | response (status : Nat) (body : Json) : HttpOutcome
  | networkError : HttpOutcome

/-- The fixed base host (robinhood.py line 181). -/
def base_url : String := "https://trading.robinhood.com"

/-- CryptoAPITrading.make_api_request (robinhood.py lines 198-215): signs
and issues exactly one request with a 10-second timeout, and classifies
the outcome — any status ≥ 400 or any network error yields `none` (the
exception is caught and `None` returned).  The list of issued requests is
returned alongside the result. -/
def make_api_request (sigPrim : List Nat → List Nat) (api_key : String)
    (now : Int) (outcome : HttpOutcome) (method : Method) (path : String)
    (body : String := "") : Option Json × List HttpRequest :=
  let timestamp := now
  let headers := get_authorization_header sigPrim api_key method path body timestamp
  let url := base_url ++ path
  let req : HttpRequest :=
    { method, url, headers
      reqBody := if method = .POST then some body else none
      timeout := 10 }
  match outcome with
  | .networkError => (none, [req])
  | .response status rbody =>
    (if status ≥ 400 then none else some rbody, [req])

/-- CryptoAPITrading.get_query_params (robinhood.py lines 187-196). -/
def get_query_params (key : String) (args : List String) : String :=
  if args.isEmpty then ""
  else "?" ++ String.intercalate "&" (args.map (fun arg => key ++ "=" ++ arg))

/-- CryptoAPITrading.get_account (robinhood.py lines 229-231): returns the
transport result directly, with no dereference. -/
def get_account (sigPrim : List Nat → List Nat) (api_key : String) (now : Int)
    (outcome : HttpOutcome) : Option Json × List HttpRequest :=
  make_api_request sigPrim api_key now outcome .GET "/api/v1/crypto/trading/accounts/"

/-! ## Response dereference helpers -/

/-- Python `resp["results"]` where `resp` is the transport result:
subscripting `None` raises `TypeError`. -/
def subscriptResults (resp : Option Json) : Except PyError Json :=
  match resp with
  | none => .error .typeError
  | some j => j.getItem "results"

/-- Python `resp.get("results")` where `resp` is the transport result:
`None.get` raises `AttributeError`; on a dict, a missing key yields `None`. -/
def getResults (resp : Option Json) : Except PyError Json :=
  match resp with
  | none => .error .attributeError
  | some j =>
    match j with
    | .obj fields =>
      .ok ((List.lookup "results" fields).getD .null)
    | _ => .error .attributeError

/-- Python iteration over a parsed-JSON value in a list comprehension:
anything but a JSON array raises `TypeError`. -/
def Json.asArray (j : Json) : Except PyError (List Json) :=
  match j with
  | .arr elems => .ok elems
  | _ => .error .typeError

/-! ## Cache (diskcache memoize with expire=86400) -/

/-- State of the disk cache: entries keyed by the argument tuple of
get_trading_pairs (the symbols list), holding the memoized value and its
absolute expiry time. -/
structure CacheState where
  entries : List (List String × List TradingPair × Int)
deriving Repr

/-- Cache read: an entry is live while `now < expiry` (diskcache treats an
entry whose expire time has been reached as absent). -/
def cacheLookup (st : CacheState) (key : List String) (now : Int) :
    Option (List TradingPair) :=
  (st.entries.find? (fun e => e.1 == key && decide (now < e.2.2))).map (fun e => e.2.1)

/-- CryptoAPITrading.get_trading_pairs, undecorated body (robinhood.py
lines 237-242): one GET to the trading_pairs path, subscript the result
with "results", construct a TradingPair per element. -/
def get_trading_pairs_fetch (sigPrim : List Nat → List Nat) (api_key : String)
    (now : Int) (outcome : HttpOutcome) (symbols : List String) :
    Except PyError (List TradingPair) := do
  let query_params := get_query_params "symbol" symbols
  let path := "/api/v1/crypto/trading/trading_pairs/" ++ query_params
  let resp := (make_api_request sigPrim api_key now outcome .GET path).1
  let r ← subscriptResults resp
  let elems ← r.asArray
  elems.mapM TradingPair.from_dict

/-- CryptoAPITrading.get_trading_pairs with its `@cache.memoize(expire=86400)`
decorator (robinhood.py line 236): on a live cache hit the memoized value
is returned with no network call; on a miss the body runs once and a
successful result is stored with expiry now + 86400.  The third component
counts network calls made (0 or 1). -/
def get_trading_pairs (sigPrim : List Nat → List Nat) (api_key : String)
    (now : Int) (outcome : HttpOutcome) (symbols : List String)
    (st : CacheState) :
    Except PyError (List TradingPair) × CacheState × Nat :=
  match cacheLookup st symbols now with
  | some v => (.ok v, st, 0)
  | none =>
    match get_trading_pairs_fetch sigPrim api_key now outcome symbols with
    | .ok v => (.ok v, ⟨(symbols, v, now + 86400) :: st.entries⟩, 1)
    | .error e => (.error e, st, 1)

/-! ## Uncached quote operations -/

/-- CryptoAPITrading.get_holdings (robinhood.py lines 246-249). -/
def get_holdings (sigPrim : List Nat → List Nat) (api_key : String) (now : Int)
    (outcome : HttpOutcome) (asset_codes : List String) :
    Except PyError Json :=
  let query_params := get_query_params "asset_code" asset_codes
  let path := "/api/v1/crypto/trading/holdings/" ++ query_params
  getResults (make_api_request sigPrim api_key now outcome .GET path).1

/-- CryptoAPITrading.get_best_bid_ask (robinhood.py lines 253-256). -/
def get_best_bid_ask (sigPrim : List Nat → List Nat) (api_key : String)
    (now : Int) (outcome : HttpOutcome) (symbols : List String) :
    Except PyError Json :=
  let query_params := get_query_params "symbol" symbols
  let path := "/api/v1/crypto/marketdata/best_bid_ask/" ++ query_params
  getResults (make_api_request sigPrim api_key now outcome .GET path).1

/-- CryptoAPITrading.get_estimated_price (robinhood.py lines 261-264):
one GET carrying symbol, side and quantity, `.get("results")` on the
transport result, then one EstimatedOrderPrice per element. -/
def get_estimated_price (parseIso : String → Int)
    (sigPrim : List Nat → List Nat) (api_key : String) (now : Int)
    (outcome : HttpOutcome) (symbol side quantity : String) :
    Except PyError (List EstimatedOrderPrice) := do
  let path := "/api/v1/crypto/marketdata/estimated_price/?symbol=" ++ symbol ++
    "&side=" ++ side ++ "&quantity=" ++ quantity
  let r ← getResults (make_api_request sigPrim api_key now outcome .GET path).1
  let elems ← r.asArray
  elems.mapM (EstimatedOrderPrice.from_dict parseIso)

/-- Python `lst[0]`: `IndexError` on an empty list. -/
def pyFirst {α : Type} (xs : List α) : Except PyError α :=
  match xs with
  | [] => .error .indexError
  | x :: _ => .ok x

/-- CryptoAPITrading.get_estimated_bid_price (robinhood.py lines 269-270):
first element of the side="bid" estimated-price result. -/
def get_estimated_bid_price (parseIso : String → Int)
    (sigPrim : List Nat → List Nat) (api_key : String) (now : Int)
    (outcome : HttpOutcome) (symbol quantity : String) :
    Except PyError EstimatedOrderPrice := do
  pyFirst (← get_estimated_price parseIso sigPrim api_key now outcome symbol "bid" quantity)

/-- CryptoAPITrading.get_estimated_ask_price (robinhood.py lines 272-273). -/
def get_estimated_ask_price (parseIso : String → Int)
    (sigPrim : List Nat → List Nat) (api_key : String) (now : Int)
    (outcome : HttpOutcome) (symbol quantity : String) :
    Except PyError EstimatedOrderPrice := do
  pyFirst (← get_estimated_price parseIso sigPrim api_key now outcome symbol "ask" quantity)

/-- CryptoAPITrading.get_quantity_of_crypto (robinhood.py lines 275-278):
cached trading-pair lookup, then an uncached bid-price lookup at the
pair's minimum order size, then `price / r.price`; `floatStr` models
Python `str` on a float (only used to build the query string).
`tpOutcome` answers the trading-pairs request, `priceOutcome` the
estimated-price request. -/
def get_quantity_of_crypto (parseIso : String → Int) (floatStr : ℚ → String)
    (sigPrim : List Nat → List Nat) (api_key : String) (now : Int)
    (tpOutcome priceOutcome : HttpOutcome) (symbol : String) (price : ℚ)
    (st : CacheState) :
    Except PyError ℚ × CacheState :=
  let tpsStep := get_trading_pairs sigPrim api_key now tpOutcome [symbol] st
  let st1 := tpsStep.2.1
  match tpsStep.1 with
  | .error e => (.error e, st1)
  | .ok tps =>
    match pyFirst tps with
    | .error e => (.error e, st1)
    | .ok tp =>
      match get_estimated_bid_price parseIso sigPrim api_key now priceOutcome
          symbol (floatStr tp.min_order_size) with
      | .error e => (.error e, st1)
      | .ok r =>
        if r.price = 0 then (.error .zeroDivisionError, st1)
        else (.ok (price / r.price), st1)

/-- CryptoAPITrading.get_current_estimated_price (robinhood.py lines
280-284): fetches "both"-side quotes at the pair's minimum order size,
takes the FIRST entry of each side (`[...][0]` — `IndexError` only when a
side has no entry), and builds the flattened history entry with
`EstimatedOrderPriceHistoryEntry.from_objs`. -/
def get_current_estimated_price (parseIso : String → Int) (floatStr : ℚ → String)
    (sigPrim : List Nat → List Nat) (api_key : String) (now : Int)
    (tpOutcome priceOutcome : HttpOutcome) (symbol : String) (st : CacheState) :
    Except PyError EstimatedOrderPriceHistoryEntry × CacheState :=
  let tpsStep := get_trading_pairs sigPrim api_key now tpOutcome [symbol] st
  let st1 := tpsStep.2.1
  match tpsStep.1 with
  | .error e => (.error e, st1)
  | .ok tps =>
    match pyFirst tps with
    | .error e => (.error e, st1)
    | .ok tp =>
      match get_estimated_price parseIso sigPrim api_key now priceOutcome
          symbol "both" (floatStr tp.min_order_size) with
      | .error e => (.error e, st1)
      | .ok both =>
        match pyFirst (both.filter (fun x => x.side == "bid")) with
        | .error e => (.error e, st1)
        | .ok bid =>
          match pyFirst (both.filter (fun x => x.side == "ask")) with
          | .error e => (.error e, st1)
          | .ok ask =>
            (.ok (EstimatedOrderPriceHistoryEntry.from_objs bid ask), st1)

/-! ## Concrete fixtures for witnesses and counterexamples -/

/-- Timestamp-parser instance for concrete runs: digit strings as epoch values. -/
def tsNum (s : String) : Int := ((parseNatDigits s.toList).getD 0 : Nat)

/-- Signing-primitive instance for concrete runs: the identity on bytes. -/
def sigId : List Nat → List Nat := fun bs => bs

/-- Float-to-string instance for concrete runs (it only feeds the query string,
which the explicit upstream outcome already answers). -/
def strOfFloat : ℚ → String := fun _ => "1"

/-- The trading-pairs wire payload of spec §8 test 8. -/
def btcPayload : Json := .obj
  [("asset_code", .str "BTC"), ("asset_increment", .str "0.00000001"),
   ("max_order_size", .str "20"), ("min_order_size", .str "0.000001"),
   ("quote_code", .str "USD"), ("quote_increment", .str "0.01"),
   ("status", .str "tradable"), ("symbol", .str "BTC-USD")]

/-- The TradingPair that `btcPayload` parses to. -/
def btcPair : TradingPair :=
  { asset_code := "BTC", asset_increment := 1/100000000, max_order_size := 20,
    min_order_size := 1/1000000, quote_code := "USD", quote_increment := 1/100,
    status := "tradable", symbol := "BTC-USD" }

/-- Upstream outcome answering a trading-pairs request with one pair. -/
def tpOutcome : HttpOutcome := .response 200 (.obj [("results", .arr [btcPayload])])

/-- Wire payload of a bid quote at timestamp 100. -/
def bidPayload : Json := .obj
  [("symbol", .str "BTC-USD"), ("price", .str "2.5"), ("quantity", .str "800"),
   ("side", .str "bid"), ("bid_inclusive_of_sell_spread", .str "2.4"),
   ("sell_spread", .str "0.05"), ("timestamp", .str "100")]

/-- A second bid quote at timestamp 150 (multiple-bid scenario). -/
def bidPayload2 : Json := .obj
  [("symbol", .str "BTC-USD"), ("price", .str "3.5"), ("quantity", .str "800"),
   ("side", .str "bid"), ("bid_inclusive_of_sell_spread", .str "3.4"),
   ("sell_spread", .str "0.06"), ("timestamp", .str "150")]

/-- Wire payload of an ask quote at timestamp 200 (≠ the bid's 100). -/
def askPayload : Json := .obj
  [("symbol", .str "BTC-USD"), ("price", .str "2.6"), ("quantity", .str "800"),
   ("side", .str "ask"), ("ask_inclusive_of_buy_spread", .str "2.7"),
   ("buy_spread", .str "0.04"), ("timestamp", .str "200")]

/-- The EstimatedOrderPrice that `bidPayload` parses to (under `tsNum`). -/
def bidParsed : EstimatedOrderPrice :=
  { symbol := "BTC-USD", price := 5/2, quantity := 800, side := "bid",
    timestamp := 100, price_including_spread := 12/5, spread := 1/20 }

/-- The EstimatedOrderPrice that `askPayload` parses to (under `tsNum`). -/
def askParsed : EstimatedOrderPrice :=
  { symbol := "BTC-USD", price := 13/5, quantity := 800, side := "ask",
    timestamp := 200, price_including_spread := 27/10, spread := 1/25 }

/-- The EstimatedOrderPrice that `bidPayload2` parses to (under `tsNum`). -/
def bidParsed2 : EstimatedOrderPrice :=
  { symbol := "BTC-USD", price := 7/2, quantity := 800, side := "bid",
    timestamp := 150, price_including_spread := 17/5, spread := 3/50 }

/-- Outcome for a "both"-side request: two bids and one ask, with three
distinct timestamps. -/
def bothBadOutcome : HttpOutcome :=
  .response 200 (.obj [("results", .arr [bidPayload, bidPayload2, askPayload])])

/-- Outcome answering a bid request with a single quote. -/
def bidOutcome : HttpOutcome := .response 200 (.obj [("results", .arr [bidPayload])])

/-- Outcome with an empty results list. -/
def emptyResultsOutcome : HttpOutcome := .response 200 (.obj [("results", .arr [])])

/-- Flattened entry produced by the C1 concrete run: first bid (ts 100),
first ask (ts 200), composite timestamp taken from the bid. -/
def entryBad : EstimatedOrderPriceHistoryEntry :=
  { symbol := "BTC-USD", bid_price := 5/2, bid_quantity := 800, bid_side := "bid",
    bid_timestamp := 100, bid_price_including_spread := 12/5, bid_spread := 1/20,
    ask_price := 13/5, ask_quantity := 800, ask_side := "ask", ask_timestamp := 200,
    ask_price_including_spread := 27/10, ask_spread := 1/25, timestamp := 100 }

/-- Plain bid object with timestamp 10 (object-level fixtures for C4). -/
def eopBid1 : EstimatedOrderPrice :=
  { symbol := "X-USD", price := 1, quantity := 2, side := "bid",
    timestamp := 10, price_including_spread := 3, spread := 4 }

/-- Plain ask object with timestamp 10 (equal to `eopBid1`). -/
def eopAsk1 : EstimatedOrderPrice :=
  { symbol := "X-USD", price := 5, quantity := 2, side := "ask",
    timestamp := 10, price_including_spread := 6, spread := 7 }

/-- Plain ask object with timestamp 11 (differs from `eopBid1`). -/
def eopAsk2 : EstimatedOrderPrice :=
  { symbol := "X-USD", price := 5, quantity := 2, side := "ask",
    timestamp := 11, price_including_spread := 6, spread := 7 }

/-! ## Helper lemmas -/

theorem exbind_ok {α β : Type} (a : α) (f : α → Except PyError β) :
    (Except.ok a : Except PyError α) >>= f = f a := rfl

theorem exbind_err {α β : Type} (e : PyError) (f : α → Except PyError β) :
    (Except.error e : Except PyError α) >>= f = Except.error e := rfl

theorem mapM_loop_nil {α β : Type} (f : α → Except PyError β) (acc : List β) :
    List.mapM.loop f [] acc = .ok acc.reverse := rfl

theorem mapM_loop_cons {α β : Type} (f : α → Except PyError β) (x : α)
    (xs : List α) (acc : List β) :
    List.mapM.loop f (x :: xs) acc = f x >>= fun b => List.mapM.loop f xs (b :: acc) := rfl

/-! ## Claims -/

/-- C4: for every bid and ask pair of EstimatedOrderPrice values,
constructing an EstimatedBidAndAskPrice fails (with the timestamp-mismatch
error, `ValueError` in the source, `TimestampMismatchError` in the spec's
taxonomy) when `bid.timestamp` differs from `ask.timestamp`, and succeeds
when they are equal, with the composite timestamp equal to both; the same
dichotomy governs `from_dict` once its two sides have parsed. -/
theorem claim_C4 (bid ask : EstimatedOrderPrice) :
    (bid.timestamp ≠ ask.timestamp →
      EstimatedBidAndAskPrice.from_objs bid ask =
        .error (.valueError "Bid and ask timestamps must match")) ∧
    (bid.timestamp = ask.timestamp →
      ∃ r, EstimatedBidAndAskPrice.from_objs bid ask = .ok r ∧
        r.bid = bid ∧ r.ask = ask ∧
        r.timestamp = bid.timestamp ∧ r.timestamp = ask.timestamp) ∧
    (∀ (parseIso : String → Int) (data bj aj : Json),
      data.getItem "bid" = .ok bj →
      EstimatedOrderPrice.from_dict parseIso bj = .ok bid →
      data.getItem "ask" = .ok aj →
      EstimatedOrderPrice.from_dict parseIso aj = .ok ask →
      EstimatedBidAndAskPrice.from_dict parseIso data =
        if bid.timestamp ≠ ask.timestamp then
          .error (.valueError "Bid and ask timestamps must match")
        else .ok ⟨bid, ask, bid.timestamp⟩) := by
  refine ⟨?_, ?_, ?_⟩
  · intro h
    simp [EstimatedBidAndAskPrice.from_objs, h]
  · intro h
    refine ⟨⟨bid, ask, bid.timestamp⟩, ?_, rfl, rfl, rfl, h⟩
    simp [EstimatedBidAndAskPrice.from_objs, h]
  · intro parseIso data bj aj h1 h2 h3 h4
    unfold EstimatedBidAndAskPrice.from_dict
    rw [h1]
    simp only [exbind_ok]
    rw [h2]
    simp only [exbind_ok]
    rw [h3]
    simp only [exbind_ok]
    rw [h4]
    simp only [exbind_ok]

/-- Witness for C4: both branches of the dichotomy and the `from_dict`
equation at concrete inputs. -/
theorem claim_C4_witness :
    EstimatedBidAndAskPrice.from_objs eopBid1 eopAsk2 =
      .error (.valueError "Bid and ask timestamps must match") ∧
    (∃ r, EstimatedBidAndAskPrice.from_objs eopBid1 eopAsk1 = .ok r ∧
      r.bid = eopBid1 ∧ r.ask = eopAsk1 ∧
      r.timestamp = eopBid1.timestamp ∧ r.timestamp = eopAsk1.timestamp) :=
  ⟨(claim_C4 eopBid1 eopAsk2).1 (by decide),
   (claim_C4 eopBid1 eopAsk1).2.1 (by decide)⟩

/-- C5: for every raw quote payload that parses, the price-including-spread
and spread fields were sourced from the side-dependent wire fields: the
sell-spread pair for side="bid", the buy-spread pair for side="ask". -/
theorem claim_C5 (parseIso : String → Int) (data : Json) (r : EstimatedOrderPrice)
    (h : EstimatedOrderPrice.from_dict parseIso data = .ok r) :
    (r.side = "bid" →
      data.getFloat "bid_inclusive_of_sell_spread" = .ok r.price_including_spread ∧
      data.getFloat "sell_spread" = .ok r.spread) ∧
    (r.side = "ask" →
      data.getFloat "ask_inclusive_of_buy_spread" = .ok r.price_including_spread ∧
      data.getFloat "buy_spread" = .ok r.spread) := by
  unfold EstimatedOrderPrice.from_dict at h
  cases e1 : data.getStr "side" with
  | error e => simp [e1, exbind_err] at h
  | ok side =>
  simp only [e1, exbind_ok] at h
  by_cases hb : side = "bid"
  · subst hb
    simp only [reduceIte] at h
    cases e2 : data.getStr "symbol" with
    | error e => simp [e2, exbind_err] at h
    | ok symbol =>
    simp only [e2, exbind_ok] at h
    cases e3 : data.getFloat "price" with
    | error e => simp [e3, exbind_err] at h
    | ok price =>
    simp only [e3, exbind_ok] at h
    cases e4 : data.getFloat "quantity" with
    | error e => simp [e4, exbind_err] at h
    | ok quantity =>
    simp only [e4, exbind_ok] at h
    cases e5 : data.getStr "timestamp" with
    | error e => simp [e5, exbind_err] at h
    | ok tsRaw =>
    simp only [e5, exbind_ok] at h
    cases e6 : data.getFloat "bid_inclusive_of_sell_spread" with
    | error e => simp [e6, exbind_err] at h
    | ok pis =>
    simp only [e6, exbind_ok] at h
    cases e7 : data.getFloat "sell_spread" with
    | error e => simp [e7, exbind_err] at h
    | ok spread =>
    simp only [e7, exbind_ok] at h
    simp only [Except.ok.injEq] at h
    subst h
    simp_all
  · simp only [if_neg hb] at h
    cases e2 : data.getStr "symbol" with
    | error e => simp [e2, exbind_err] at h
    | ok symbol =>
    simp only [e2, exbind_ok] at h
    cases e3 : data.getFloat "price" with
    | error e => simp [e3, exbind_err] at h
    | ok price =>
    simp only [e3, exbind_ok] at h
    cases e4 : data.getFloat "quantity" with
    | error e => simp [e4, exbind_err] at h
    | ok quantity =>
    simp only [e4, exbind_ok] at h
    cases e5 : data.getStr "timestamp" with
    | error e => simp [e5, exbind_err] at h
    | ok tsRaw =>
    simp only [e5, exbind_ok] at h
    cases e6 : data.getFloat "ask_inclusive_of_buy_spread" with
    | error e => simp [e6, exbind_err] at h
    | ok pis =>
    simp only [e6, exbind_ok] at h
    cases e7 : data.getFloat "buy_spread" with
    | error e => simp [e7, exbind_err] at h
    | ok spread =>
    simp only [e7, exbind_ok] at h
    simp only [Except.ok.injEq] at h
    subst h
    constructor
    · intro hs
      exact absurd hs hb
    · intro hs
      exact ⟨by simpa using e6, by simpa using e7⟩

/-- Witness for C5: the concrete bid payload parses and its spread fields
come from the sell-spread wire fields. -/
theorem claim_C5_witness :
    bidParsed.side = "bid" ∧
    bidPayload.getFloat "bid_inclusive_of_sell_spread" = .ok bidParsed.price_including_spread ∧
    bidPayload.getFloat "sell_spread" = .ok bidParsed.spread :=
  ⟨rfl,
   (claim_C5 tsNum bidPayload bidParsed (by
      simp [EstimatedOrderPrice.from_dict, Json.getStr, Json.getFloat, Json.getItem,
        bidPayload, bidParsed, parseFloat, parseNatDigits, splitDot, digitVal,
        List.lookup, tsNum, exbind_ok, exbind_err, EstimatedOrderPrice.mk.injEq]
      norm_num)).1 rfl⟩

/-- Success of `Json.getStr` implies the key is present. -/
theorem getStr_ok_getItem {data : Json} {k s : String}
    (h : Json.getStr data k = .ok s) : ∃ v, data.getItem k = .ok v := by
  unfold Json.getStr at h
  cases e : data.getItem k with
  | error err => simp [e, exbind_err] at h
  | ok v => exact ⟨v, rfl⟩

/-- Success of `Json.getFloat` implies the key is present. -/
theorem getFloat_ok_getItem {data : Json} {k : String} {q : ℚ}
    (h : Json.getFloat data k = .ok q) : ∃ v, data.getItem k = .ok v := by
  unfold Json.getFloat at h
  cases e : data.getItem k with
  | error err => simp [e, exbind_err] at h
  | ok v => exact ⟨v, rfl⟩

/-- The eight wire fields required by `TradingPair.from_dict`. -/
def tpRequiredFields : List String :=
  ["asset_code", "asset_increment", "max_order_size", "min_order_size",
   "quote_code", "quote_increment", "status", "symbol"]

/-- If `TradingPair.from_dict` succeeds, every required field was present. -/
theorem tp_from_dict_ok_present (data : Json) (t : TradingPair)
    (h : TradingPair.from_dict data = .ok t) :
    ∀ k ∈ tpRequiredFields, ∃ v, data.getItem k = .ok v := by
  unfold TradingPair.from_dict at h
  cases e1 : data.getStr "asset_code" with
  | error e => simp [e1, exbind_err] at h
  | ok v1 =>
  simp only [e1, exbind_ok] at h
  cases e2 : data.getFloat "asset_increment" with
  | error e => simp [e2, exbind_err] at h
  | ok v2 =>
  simp only [e2, exbind_ok] at h
  cases e3 : data.getFloat "max_order_size" with
  | error e => simp [e3, exbind_err] at h
  | ok v3 =>
  simp only [e3, exbind_ok] at h
  cases e4 : data.getFloat "min_order_size" with
  | error e => simp [e4, exbind_err] at h
  | ok v4 =>
  simp only [e4, exbind_ok] at h
  cases e5 : data.getStr "quote_code" with
  | error e => simp [e5, exbind_err] at h
  | ok v5 =>
  simp only [e5, exbind_ok] at h
  cases e6 : data.getFloat "quote_increment" with
  | error e => simp [e6, exbind_err] at h
  | ok v6 =>
  simp only [e6, exbind_ok] at h
  cases e7 : data.getStr "status" with
  | error e => simp [e7, exbind_err] at h
  | ok v7 =>
  simp only [e7, exbind_ok] at h
  cases e8 : data.getStr "symbol" with
  | error e => simp [e8, exbind_err] at h
  | ok v8 =>
  intro k hk
  simp only [tpRequiredFields, List.mem_cons, List.mem_singleton] at hk
  rcases hk with rfl | rfl | rfl | rfl | rfl | rfl | rfl | rfl | hk
  · exact getStr_ok_getItem e1
  · exact getFloat_ok_getItem e2
  · exact getFloat_ok_getItem e3
  · exact getFloat_ok_getItem e4
  · exact getStr_ok_getItem e5
  · exact getFloat_ok_getItem e6
  · exact getStr_ok_getItem e7
  · exact getStr_ok_getItem e8
  · exact absurd hk (List.not_mem_nil k)

/-- C9: the TradingPair constructor coerces decimal-string numeric fields
to exact numbers (the sample payload with asset_code "BTC" parses with
min_order_size = 0.000001 and symbol = "BTC-USD"; the long-form decimal
string "0.000001000000000000" also coerces to exactly 0.000001), and an
absent required field makes construction fail. -/
theorem claim_C9 :
    TradingPair.from_dict btcPayload = .ok btcPair ∧
    btcPair.min_order_size = 1/1000000 ∧
    btcPair.symbol = "BTC-USD" ∧
    parseFloat "0.000001000000000000" = some (1/1000000) ∧
    (∀ (data : Json) (k : String), k ∈ tpRequiredFields →
      data.getItem k = .error (.keyError k) →
      ∃ e, TradingPair.from_dict data = .error e) := by
  refine ⟨?_, rfl, rfl, ?_, ?_⟩
  · simp [TradingPair.from_dict, Json.getStr, Json.getFloat, Json.getItem,
      btcPayload, btcPair, parseFloat, parseNatDigits, splitDot, digitVal,
      List.lookup, TradingPair.mk.injEq, exbind_ok, exbind_err]
    norm_num
  · simp [parseFloat, parseNatDigits, splitDot, digitVal]
    norm_num
  · intro data k hk habs
    cases hfd : TradingPair.from_dict data with
    | error e => exact ⟨e, rfl⟩
    | ok t =>
      obtain ⟨v, hv⟩ := tp_from_dict_ok_present data t hfd k hk
      rw [habs] at hv
      exact absurd hv (by simp)

/-- Witness for C9: a payload with no fields fails to construct. -/
theorem claim_C9_witness :
    ∃ e, TradingPair.from_dict (Json.obj []) = .error e :=
  claim_C9.2.2.2.2 (Json.obj []) "asset_code" (by simp [tpRequiredFields]) rfl

/-- C2: for every symbol and quantity, get_estimated_bid_price and
get_estimated_ask_price return the first element of their side-specific
estimated-price result, and fail (IndexError from `[0]`, the spec's
`NoQuoteAvailable`) whenever the upstream result set is empty. -/
theorem claim_C2 (parseIso : String → Int) (sigPrim : List Nat → List Nat)
    (api_key : String) (now : Int) (outcome : HttpOutcome) (symbol quantity : String) :
    (∀ xs, get_estimated_price parseIso sigPrim api_key now outcome symbol "bid" quantity = .ok xs →
      get_estimated_bid_price parseIso sigPrim api_key now outcome symbol quantity =
        match xs with
        | [] => .error .indexError
        | x :: _ => .ok x) ∧
    (∀ xs, get_estimated_price parseIso sigPrim api_key now outcome symbol "ask" quantity = .ok xs →
      get_estimated_ask_price parseIso sigPrim api_key now outcome symbol quantity =
        match xs with
        | [] => .error .indexError
        | x :: _ => .ok x) := by
  constructor
  · intro xs h
    unfold get_estimated_bid_price
    rw [h, exbind_ok]
    cases xs <;> rfl
  · intro xs h
    unfold get_estimated_ask_price
    rw [h, exbind_ok]
    cases xs <;> rfl

/-- Witness for C2: an empty upstream result set makes the bid lookup fail
with the index error, and a singleton result set returns its entry. -/
theorem claim_C2_witness :
    get_estimated_bid_price tsNum sigId "key" 0 emptyResultsOutcome "BTC-USD" "1" =
      .error .indexError ∧
    get_estimated_bid_price tsNum sigId "key" 0 bidOutcome "BTC-USD" "1" = .ok bidParsed := by
  have h1 : get_estimated_price tsNum sigId "key" 0 emptyResultsOutcome "BTC-USD" "bid" "1" =
      .ok [] := by
    simp [get_estimated_price, make_api_request, getResults, base_url, Json.asArray,
      emptyResultsOutcome, List.lookup, exbind_ok, exbind_err, mapM_loop_nil]
  have h2 : get_estimated_price tsNum sigId "key" 0 bidOutcome "BTC-USD" "bid" "1" =
      .ok [bidParsed] := by
    simp [get_estimated_price, make_api_request, getResults, base_url, Json.asArray,
      bidOutcome, bidPayload, bidParsed, EstimatedOrderPrice.from_dict, Json.getStr,
      Json.getFloat, Json.getItem, List.lookup, parseFloat, parseNatDigits, splitDot,
      digitVal, tsNum, exbind_ok, exbind_err, mapM_loop_nil, mapM_loop_cons,
      EstimatedOrderPrice.mk.injEq]
    norm_num
  exact ⟨(claim_C2 tsNum sigId "key" 0 emptyResultsOutcome "BTC-USD" "1").1 [] h1,
         (claim_C2 tsNum sigId "key" 0 bidOutcome "BTC-USD" "1").1 [bidParsed] h2⟩

/-- C3: every transport call issues exactly one HTTP request with a
10-second timeout; a network error yields an absent result, a response is
absent exactly when its status is ≥ 400; in particular get_account under
a 503 response returns an absent result with no exception. -/
theorem claim_C3 (sigPrim : List Nat → List Nat) (api_key : String) (now : Int)
    (method : Method) (path body : String) :
    (∀ outcome, ∃ req,
      (make_api_request sigPrim api_key now outcome method path body).2 = [req] ∧
      req.timeout = 10) ∧
    ((make_api_request sigPrim api_key now .networkError method path body).1 = none) ∧
    (∀ status rbody,
      (make_api_request sigPrim api_key now (.response status rbody) method path body).1 =
        if 400 ≤ status then none else some rbody) ∧
    (∀ rbody, (get_account sigPrim api_key now (.response 503 rbody)).1 = none) ∧
    ((get_account sigPrim api_key now .networkError).1 = none) := by
  refine ⟨?_, rfl, ?_, ?_, rfl⟩
  · intro outcome
    cases outcome <;> exact ⟨_, rfl, rfl⟩
  · intro status rbody
    rfl
  · intro rbody
    have h : (400 : Nat) ≤ 503 := by norm_num
    simp [get_account, make_api_request, h]

/-- C6: the signed message is the delimiter-free concatenation
apiKey ++ timestamp ++ path ++ method ++ body, base64-encoded after
signing, and the header set is x-api-key / x-signature / x-timestamp;
a GET request carries no body while the empty body string still
participates in the signature, and a POST attaches the body. -/
theorem claim_C6 (sigPrim : List Nat → List Nat) (api_key path body : String)
    (ts now : Int) :
    (∀ method : Method,
      get_authorization_header sigPrim api_key method path body ts =
        [("x-api-key", api_key),
         ("x-signature",
          base64encode (sigPrim (utf8Bytes
            (api_key ++ toString ts ++ path ++ method.str ++ body)))),
         ("x-timestamp", toString ts)]) ∧
    (∀ outcome, ∃ req,
      (make_api_request sigPrim api_key now outcome .GET path body).2 = [req] ∧
      req.reqBody = none ∧
      req.headers = get_authorization_header sigPrim api_key .GET path body now) ∧
    (∀ outcome, ∃ req,
      (make_api_request sigPrim api_key now outcome .POST path body).2 = [req] ∧
      req.reqBody = some body ∧
      req.headers = get_authorization_header sigPrim api_key .POST path body now) := by
  refine ⟨fun method => rfl, ?_, ?_⟩
  · intro outcome
    cases outcome <;> exact ⟨_, rfl, rfl, rfl⟩
  · intro outcome
    cases outcome <;> exact ⟨_, rfl, rfl, rfl⟩

/-- C7: the trading-pair lookup is memoized with TTL 86,400 s: after a
miss-then-fetch at time t, any call with the same argument tuple before
t + 86400 returns the same value with zero network calls and unchanged
cache state, while a call at or after expiry makes exactly one new
network call; the quote/bid/ask/order operations carry no cache at all
(their definitions neither read nor write CacheState). -/
theorem claim_C7 (sigPrim : List Nat → List Nat) (api_key : String)
    (symbols : List String) (st0 : CacheState) (t : Int) (outcome1 : HttpOutcome)
    (v : List TradingPair)
    (hmiss : cacheLookup st0 symbols t = none)
    (hfetch : get_trading_pairs_fetch sigPrim api_key t outcome1 symbols = .ok v) :
    get_trading_pairs sigPrim api_key t outcome1 symbols st0 =
      (.ok v, ⟨(symbols, v, t + 86400) :: st0.entries⟩, 1) ∧
    (∀ (t' : Int) (outcome2 : HttpOutcome), t' < t + 86400 →
      get_trading_pairs sigPrim api_key t' outcome2 symbols
          ⟨(symbols, v, t + 86400) :: st0.entries⟩ =
        (.ok v, ⟨(symbols, v, t + 86400) :: st0.entries⟩, 0)) ∧
    (∀ (t'' : Int) (outcome3 : HttpOutcome), t + 86400 ≤ t'' →
      cacheLookup st0 symbols t'' = none →
      (get_trading_pairs sigPrim api_key t'' outcome3 symbols
          ⟨(symbols, v, t + 86400) :: st0.entries⟩).2.2 = 1) := by
  refine ⟨?_, ?_, ?_⟩
  · simp [get_trading_pairs, hmiss, hfetch]
  · intro t' outcome2 ht'
    have hhit : cacheLookup ⟨(symbols, v, t + 86400) :: st0.entries⟩ symbols t' = some v := by
      simp [cacheLookup, List.find?_cons_of_pos, ht']
    simp [get_trading_pairs, hhit]
  · intro t'' outcome3 ht'' hnone
    have hexp : cacheLookup ⟨(symbols, v, t + 86400) :: st0.entries⟩ symbols t'' = none := by
      unfold cacheLookup at hnone ⊢
      rw [List.find?_cons_of_neg]
      · simpa using hnone
      · simp [not_lt.mpr ht'']
    cases hf : get_trading_pairs_fetch sigPrim api_key t'' outcome3 symbols <;>
      simp [get_trading_pairs, hexp, hf]

/-- Witness for C7: miss-fetch at t = 0, value-equal hit with no network
call at t = 100, one new network call at expiry t = 86400. -/
theorem claim_C7_witness :
    get_trading_pairs sigId "key" 0 tpOutcome ["BTC-USD"] ⟨[]⟩ =
      (.ok [btcPair], ⟨[(["BTC-USD"], [btcPair], 0 + 86400)]⟩, 1) ∧
    get_trading_pairs sigId "key" 100 .networkError ["BTC-USD"]
        ⟨[(["BTC-USD"], [btcPair], 0 + 86400)]⟩ =
      (.ok [btcPair], ⟨[(["BTC-USD"], [btcPair], 0 + 86400)]⟩, 0) ∧
    (get_trading_pairs sigId "key" 86400 .networkError ["BTC-USD"]
        ⟨[(["BTC-USD"], [btcPair], 0 + 86400)]⟩).2.2 = 1 := by
  have hfetch : get_trading_pairs_fetch sigId "key" 0 tpOutcome ["BTC-USD"] = .ok [btcPair] := by
    simp [get_trading_pairs_fetch, get_query_params, make_api_request, subscriptResults,
      base_url, Json.asArray, Json.getItem, tpOutcome, btcPayload, btcPair,
      TradingPair.from_dict, Json.getStr, Json.getFloat, List.lookup, parseFloat,
      parseNatDigits, splitDot, digitVal, exbind_ok, exbind_err, mapM_loop_nil,
      mapM_loop_cons, TradingPair.mk.injEq]
    norm_num
  have h := claim_C7 sigId "key" ["BTC-USD"] ⟨[]⟩ 0 tpOutcome [btcPair] rfl hfetch
  exact ⟨h.1, h.2.1 100 .networkError (by norm_num), h.2.2 86400 .networkError (by norm_num) rfl⟩

/-- C8: get_quantity_of_crypto divides the requested USD amount by the
`price` of the estimated bid quote taken at the trading pair's minimum
order size, after a cached trading-pair lookup. -/
theorem claim_C8 (parseIso : String → Int) (floatStr : ℚ → String)
    (sigPrim : List Nat → List Nat) (api_key : String) (now : Int)
    (tpO priceO : HttpOutcome) (symbol : String) (usd : ℚ)
    (st st1 : CacheState) (n : Nat) (tp : TradingPair) (tps : List TradingPair)
    (r : EstimatedOrderPrice)
    (htp : get_trading_pairs sigPrim api_key now tpO [symbol] st = (.ok (tp :: tps), st1, n))
    (hbid : get_estimated_bid_price parseIso sigPrim api_key now priceO symbol
      (floatStr tp.min_order_size) = .ok r)
    (hnz : r.price ≠ 0) :
    (get_quantity_of_crypto parseIso floatStr sigPrim api_key now tpO priceO
      symbol usd st).1 = .ok (usd / r.price) := by
  unfold get_quantity_of_crypto
  rw [htp]
  simp [pyFirst, hbid, hnz]

/-- Witness for C8: with one trading pair and one bid quote at price 5/2,
one USD buys 1 / (5/2) units. -/
theorem claim_C8_witness :
    (get_quantity_of_crypto tsNum strOfFloat sigId "key" 0 tpOutcome bidOutcome
      "BTC-USD" 1 ⟨[]⟩).1 = .ok (1 / bidParsed.price) := by
  have htp : get_trading_pairs sigId "key" 0 tpOutcome ["BTC-USD"] ⟨[]⟩ =
      (.ok [btcPair], ⟨[(["BTC-USD"], [btcPair], 0 + 86400)]⟩, 1) := by
    have hfetch : get_trading_pairs_fetch sigId "key" 0 tpOutcome ["BTC-USD"] =
        .ok [btcPair] := by
      simp [get_trading_pairs_fetch, get_query_params, make_api_request, subscriptResults,
        base_url, Json.asArray, Json.getItem, tpOutcome, btcPayload, btcPair,
        TradingPair.from_dict, Json.getStr, Json.getFloat, List.lookup, parseFloat,
        parseNatDigits, splitDot, digitVal, exbind_ok, exbind_err, mapM_loop_nil,
        mapM_loop_cons, TradingPair.mk.injEq]
      norm_num
    simp [get_trading_pairs, cacheLookup, hfetch]
  have hbid : get_estimated_bid_price tsNum sigId "key" 0 bidOutcome "BTC-USD"
      (strOfFloat btcPair.min_order_size) = .ok bidParsed := by
    simp [get_estimated_bid_price, get_estimated_price, make_api_request, getResults,
      base_url, Json.asArray, bidOutcome, bidPayload, bidParsed, strOfFloat,
      EstimatedOrderPrice.from_dict, Json.getStr, Json.getFloat, Json.getItem,
      List.lookup, parseFloat, parseNatDigits, splitDot, digitVal, tsNum,
      exbind_ok, exbind_err, mapM_loop_nil, mapM_loop_cons, pyFirst,
      EstimatedOrderPrice.mk.injEq]
    norm_num
  exact claim_C8 tsNum strOfFloat sigId "key" 0 tpOutcome bidOutcome "BTC-USD" 1
    ⟨[]⟩ ⟨[(["BTC-USD"], [btcPair], 0 + 86400)]⟩ 1 btcPair [] bidParsed htp hbid
    (by simp [bidParsed])

/-- C10: when the transport yields an absent result (network error or any
status ≥ 400), the operations that dereference it raise — get_trading_pairs
(the fetch body) a TypeError from `None["results"]`, and get_holdings,
get_best_bid_ask, get_estimated_price an AttributeError from
`None.get("results")` — while get_account returns the absent result itself. -/
theorem claim_C10 (parseIso : String → Int) (sigPrim : List Nat → List Nat)
    (api_key : String) (now : Int) (symbols asset_codes : List String)
    (symbol side quantity : String) :
    (get_trading_pairs_fetch sigPrim api_key now .networkError symbols =
      .error .typeError) ∧
    (get_holdings sigPrim api_key now .networkError asset_codes =
      .error .attributeError) ∧
    (get_best_bid_ask sigPrim api_key now .networkError symbols =
      .error .attributeError) ∧
    (get_estimated_price parseIso sigPrim api_key now .networkError symbol side quantity =
      .error .attributeError) ∧
    ((get_account sigPrim api_key now .networkError).1 = none) ∧
    (∀ (status : Nat) (rbody : Json), 400 ≤ status →
      get_trading_pairs_fetch sigPrim api_key now (.response status rbody) symbols =
        .error .typeError ∧
      get_holdings sigPrim api_key now (.response status rbody) asset_codes =
        .error .attributeError ∧
      get_best_bid_ask sigPrim api_key now (.response status rbody) symbols =
        .error .attributeError ∧
      get_estimated_price parseIso sigPrim api_key now (.response status rbody)
        symbol side quantity = .error .attributeError ∧
      (get_account sigPrim api_key now (.response status rbody)).1 = none) := by
  refine ⟨rfl, rfl, rfl, rfl, rfl, ?_⟩
  intro status rbody hs
  refine ⟨?_, ?_, ?_, ?_, ?_⟩ <;>
    simp [get_trading_pairs_fetch, get_holdings, get_best_bid_ask, get_estimated_price,
      get_account, make_api_request, subscriptResults, getResults, hs,
      exbind_err]

/-- Witness for C10: the 503 instance of the status ≥ 400 clause. -/
theorem claim_C10_witness :
    get_trading_pairs_fetch sigId "key" 0 (.response 503 .null) ["BTC-USD"] =
      .error .typeError ∧
    get_holdings sigId "key" 0 (.response 503 .null) [] = .error .attributeError ∧
    get_best_bid_ask sigId "key" 0 (.response 503 .null) [] = .error .attributeError ∧
    get_estimated_price tsNum sigId "key" 0 (.response 503 .null) "BTC-USD" "bid" "1" =
      .error .attributeError ∧
    (get_account sigId "key" 0 (.response 503 .null)).1 = none :=
  (claim_C10 tsNum sigId "key" 0 ["BTC-USD"] [] "BTC-USD" "bid" "1").2.2.2.2.2
    503 .null (by norm_num)

/-- C1 counterexample: with two bid entries and mismatched bid/ask
timestamps in the upstream "both" response, get_current_estimated_price
succeeds (returning the first entry of each side, timestamps unchecked),
so "any deviation (zero or multiple entries per side, or mismatched
timestamps) is a construction failure" is false on the code. -/
theorem claim_C1_counterexample :
    (get_current_estimated_price tsNum strOfFloat sigId "key" 0 tpOutcome bothBadOutcome
        "BTC-USD" ⟨[]⟩).1 = .ok entryBad ∧
    entryBad.bid_timestamp ≠ entryBad.ask_timestamp := by
  have htp : get_trading_pairs sigId "key" 0 tpOutcome ["BTC-USD"] ⟨[]⟩ =
      (.ok [btcPair], ⟨[(["BTC-USD"], [btcPair], 0 + 86400)]⟩, 1) := by
    have hfetch : get_trading_pairs_fetch sigId "key" 0 tpOutcome ["BTC-USD"] =
        .ok [btcPair] := by
      simp [get_trading_pairs_fetch, get_query_params, make_api_request, subscriptResults,
        base_url, Json.asArray, Json.getItem, tpOutcome, btcPayload, btcPair,
        TradingPair.from_dict, Json.getStr, Json.getFloat, List.lookup, parseFloat,
        parseNatDigits, splitDot, digitVal, exbind_ok, exbind_err, mapM_loop_nil,
        mapM_loop_cons, TradingPair.mk.injEq]
      norm_num
    simp [get_trading_pairs, cacheLookup, hfetch]
  have hboth : get_estimated_price tsNum sigId "key" 0 bothBadOutcome "BTC-USD" "both"
      "1" = .ok [bidParsed, bidParsed2, askParsed] := by
    simp [get_estimated_price, make_api_request, getResults, base_url, Json.asArray,
      bothBadOutcome, bidPayload, bidPayload2, askPayload, bidParsed, bidParsed2, askParsed,
      EstimatedOrderPrice.from_dict, Json.getStr, Json.getFloat, Json.getItem,
      List.lookup, parseFloat, parseNatDigits, splitDot, digitVal, tsNum,
      exbind_ok, exbind_err, mapM_loop_nil, mapM_loop_cons,
      EstimatedOrderPrice.mk.injEq]
    norm_num
  refine ⟨?_, by decide⟩
  simp [get_current_estimated_price, htp, strOfFloat, hboth, pyFirst, List.filter,
    bidParsed, bidParsed2, askParsed, entryBad, EstimatedOrderPriceHistoryEntry.from_objs]

/-- C1 amended: get_current_estimated_price requires at least one bid and
at least one ask entry — a side with zero entries is a construction
failure (IndexError) — but multiple entries per side are not an error
(the first entry of each side is used) and bid/ask timestamps are not
checked; on success the entry's symbol and bid_*/ask_* fields mirror the
first bid and first ask, with the composite timestamp equal to the bid's. -/
theorem claim_C1_amended (parseIso : String → Int) (floatStr : ℚ → String)
    (sigPrim : List Nat → List Nat) (api_key : String) (now : Int)
    (tpO priceO : HttpOutcome) (symbol : String) (st st1 : CacheState) (n : Nat)
    (tp : TradingPair) (tps : List TradingPair) (both : List EstimatedOrderPrice)
    (htp : get_trading_pairs sigPrim api_key now tpO [symbol] st = (.ok (tp :: tps), st1, n))
    (hboth : get_estimated_price parseIso sigPrim api_key now priceO symbol "both"
        (floatStr tp.min_order_size) = .ok both) :
    (both.filter (fun x => x.side == "bid") = [] →
      (get_current_estimated_price parseIso floatStr sigPrim api_key now tpO priceO
        symbol st).1 = .error .indexError) ∧
    (∀ bid bidRest, both.filter (fun x => x.side == "bid") = bid :: bidRest →
      both.filter (fun x => x.side == "ask") = [] →
      (get_current_estimated_price parseIso floatStr sigPrim api_key now tpO priceO
        symbol st).1 = .error .indexError) ∧
    (∀ bid bidRest ask askRest,
      both.filter (fun x => x.side == "bid") = bid :: bidRest →
      both.filter (fun x => x.side == "ask") = ask :: askRest →
      (get_current_estimated_price parseIso floatStr sigPrim api_key now tpO priceO
        symbol st).1 =
        .ok { symbol := bid.symbol, bid_price := bid.price, bid_quantity := bid.quantity,
              bid_side := bid.side, bid_timestamp := bid.timestamp,
              bid_price_including_spread := bid.price_including_spread,
              bid_spread := bid.spread, ask_price := ask.price,
              ask_quantity := ask.quantity, ask_side := ask.side,
              ask_timestamp := ask.timestamp,
              ask_price_including_spread := ask.price_including_spread,
              ask_spread := ask.spread, timestamp := bid.timestamp }) := by
  refine ⟨?_, ?_, ?_⟩
  · intro hb
    simp [get_current_estimated_price, htp, pyFirst, hboth, hb]
  · intro bid bidRest hb ha
    simp [get_current_estimated_price, htp, pyFirst, hboth, hb, ha]
  · intro bid bidRest ask askRest hb ha
    simp [get_current_estimated_price, htp, pyFirst, hboth, hb, ha,
      EstimatedOrderPriceHistoryEntry.from_objs]

/-- Witness for the amended C1: the concrete two-bids-one-ask run selects
the first bid and the ask and mirrors their fields. -/
theorem claim_C1_amended_witness :
    (get_current_estimated_price tsNum strOfFloat sigId "key" 0 tpOutcome bothBadOutcome
        "BTC-USD" ⟨[]⟩).1 =
      .ok { symbol := bidParsed.symbol, bid_price := bidParsed.price,
            bid_quantity := bidParsed.quantity, bid_side := bidParsed.side,
            bid_timestamp := bidParsed.timestamp,
            bid_price_including_spread := bidParsed.price_including_spread,
            bid_spread := bidParsed.spread, ask_price := askParsed.price,
            ask_quantity := askParsed.quantity, ask_side := askParsed.side,
            ask_timestamp := askParsed.timestamp,
            ask_price_including_spread := askParsed.price_including_spread,
            ask_spread := askParsed.spread, timestamp := bidParsed.timestamp } := by
  have htp : get_trading_pairs sigId "key" 0 tpOutcome ["BTC-USD"] ⟨[]⟩ =
      (.ok [btcPair], ⟨[(["BTC-USD"], [btcPair], 0 + 86400)]⟩, 1) := by
    have hfetch : get_trading_pairs_fetch sigId "key" 0 tpOutcome ["BTC-USD"] =
        .ok [btcPair] := by
      simp [get_trading_pairs_fetch, get_query_params, make_api_request, subscriptResults,
        base_url, Json.asArray, Json.getItem, tpOutcome, btcPayload, btcPair,
        TradingPair.from_dict, Json.getStr, Json.getFloat, List.lookup, parseFloat,
        parseNatDigits, splitDot, digitVal, exbind_ok, exbind_err, mapM_loop_nil,
        mapM_loop_cons, TradingPair.mk.injEq]
      norm_num
    simp [get_trading_pairs, cacheLookup, hfetch]
  have hboth : get_estimated_price tsNum sigId "key" 0 bothBadOutcome "BTC-USD" "both"
      (strOfFloat btcPair.min_order_size) = .ok [bidParsed, bidParsed2, askParsed] := by
    simp [get_estimated_price, make_api_request, getResults, base_url, Json.asArray,
      bothBadOutcome, bidPayload, bidPayload2, askPayload, bidParsed, bidParsed2, askParsed,
      strOfFloat, EstimatedOrderPrice.from_dict, Json.getStr, Json.getFloat, Json.getItem,
      List.lookup, parseFloat, parseNatDigits, splitDot, digitVal, tsNum,
      exbind_ok, exbind_err, mapM_loop_nil, mapM_loop_cons,
      EstimatedOrderPrice.mk.injEq]
    norm_num
  exact (claim_C1_amended tsNum strOfFloat sigId "key" 0 tpOutcome bothBadOutcome
    "BTC-USD" ⟨[]⟩ ⟨[(["BTC-USD"], [btcPair], 0 + 86400)]⟩ 1 btcPair [] _ htp hboth).2.2
    bidParsed [bidParsed2] askParsed []
    (by simp [List.filter, bidParsed, bidParsed2, askParsed])
    (by simp [List.filter, bidParsed, bidParsed2, askParsed])

end Robinhood
